import Mathlib

/-!
Verification of the pyserial conversion core against its source.

Shallow embedding of:
* `pyserial/serialization.py`  — the ordered native→wire registry (`_SERIALIZERS`,
  `add_serializer`, `get_serializer`, `serialize`) and the registered serializer
  functions;
* `pyserial/type_processing.py` — the type decomposer (`type_to_list`,
  `is_optional`, `is_singular_optional`, `get_type_class`);
* `pyserial/casting.py` — the first-generation caster builder
  (`get_caster`, `get_caster_from_type_list`);
* `pyserial/conversion/casting.py` — the second-generation caster builder
  (`_CASTERS`, `_get_caster`, `optional_caster`, `get_caster`,
  `get_caster_from_type_list`);
* `pyserial/serializable.py` — the record protocol
  (`Serializable.serialize`, `Serializable.deserialize`);
* `pyserial/conversion/enum_conversion.py` — the enum adapters
  (`SerializableEnum`, `SerializableEnumByName`).

Python values are modelled by `PyVal`, Python classes by `PyClass`, Python
exceptions by `PyErr`; fallible Python code returns `Except PyErr _`.
CPython's bounded recursion (RecursionError) is modelled by an explicit
fuel parameter on the mutually recursive record/caster functions.

Out of the modelled universe (unreachable from every claim): `pathlib.Path`
values and the `datetime` caster registration, Python `bool`, and Python
float printing/parsing beyond plain decimal notation.
-/

namespace PySerial

/-- Python exceptions raised by the modelled code. -/
inductive PyErr where
  | typeError (msg : String)
  | valueError (msg : String)
  | keyError (key : String)
  | attributeError (msg : String)
  | stopIteration
  | recursionDepth
deriving DecidableEq, Repr

/-- Python classes occurring in the conversion core.  `recC name` is a user
dataclass mixing in `Serializable`. -/
inductive PyClass where
  | noneType
  | strC
  | intC
  | floatC
  | listC
  | tupleC
  | dictC
  | serializableC
  | recC (name : String)
deriving DecidableEq, Repr

/-- Builtin `issubclass` restricted to the modelled plain classes
(both arguments actual classes). -/
def pySub : PyClass → PyClass → Bool
  | .recC n, .recC m => n = m
  | .recC _, .serializableC => true
  | a, b => a = b

/-- Python runtime values in the modelled universe.  `vrec` is an instance of a
dataclass: class name plus attribute map in field declaration order. -/
inductive PyVal where
  | vstr (s : String)
  | vint (n : Int)
  | vfloat (q : Rat)
  | vnone
  | vlist (xs : List PyVal)
  | vtuple (xs : List PyVal)
  | vdict (kvs : List (String × PyVal))
  | vrec (cls : PyClass) (attrs : List (String × PyVal))

/-- `type(value)` for modelled values. -/
def typeOf : PyVal → PyClass
  | .vstr _ => .strC
  | .vint _ => .intC
  | .vfloat _ => .floatC
  | .vnone => .noneType
  | .vlist _ => .listC
  | .vtuple _ => .tupleC
  | .vdict _ => .dictC
  | .vrec c _ => c

/-! ## Converter registry (`pyserial/serialization.py`)

The registry is a list of `(type-or-None, transform)` pairs; in the source the
key slot of the very first default entry is the object `None` (not `NoneType`),
hence `Option PyClass` keys.  The operations are generic in the class universe
`C` (with `sub` standing for builtin `issubclass`) and the stored transform
type `V`, exactly as the source functions work for any registered callable. -/

/-- `add_serializer` from `pyserial/serialization.py`: scan front-to-back,
skip `None` keys, replace an entry with the exact same type in place, insert
before the first strict-ancestor entry, else append. -/
def add_serializer {C V : Type} [DecidableEq C] (sub : C → C → Bool) (t : C) (s : V) :
    List (Option C × V) → List (Option C × V)
  | [] => [(some t, s)]
  | (ct, cs) :: rest =>
    match ct with
    | none => (none, cs) :: add_serializer sub t s rest
    | some c =>
      if c = t then (some t, s) :: rest
      else if sub t c then (some t, s) :: (some c, cs) :: rest
      else (some c, cs) :: add_serializer sub t s rest

/-- `get_serializer` from `pyserial/serialization.py`: scan front-to-back and
return the first entry whose key is a superclass of the queried type.  A `None`
key makes builtin `issubclass` raise
`TypeError: issubclass() arg 2 must be a class, a tuple of classes, or a union`;
an exhausted scan raises `ValueError`. -/
def get_serializer {C V : Type} (sub : C → C → Bool) (t : C) :
    List (Option C × V) → Except PyErr V
  | [] => .error (.valueError "There is no serializer defined for the type")
  | (none, _) :: _ =>
      .error (.typeError "issubclass() arg 2 must be a class, a tuple of classes, or a union")
  | (some c, s) :: rest => if sub t c then .ok s else get_serializer sub t rest

/-! ## Type decomposer (`pyserial/type_processing.py`)

Python type expressions as they exist at runtime after `typing` normalisation:
a plain class, a subscripted generic, or a `Union` (members already flattened,
`Optional[X]` being `Union` of `X` and `NoneType`). -/

inductive PyTy where
  | cls (c : PyClass)
  | generic (origin : PyClass) (args : List PyTy)
  | union (members : List PyTy)

/-- The type expression `NoneType`. -/
def noneTy : PyTy := .cls .noneType

/-- Identity test against the class `NoneType` (`arg is NoneType` /
`NoneType in get_args(...)` in the source). -/
def isNoneTy : PyTy → Bool
  | .cls .noneType => true
  | _ => false

/-- `typing.get_args`. -/
def get_args : PyTy → List PyTy
  | .cls _ => []
  | .generic _ args => args
  | .union ms => ms

/-- What `pyserial.type_processing.get_type_class` can return: a plain class,
or the `typing.Union` special form (which is not a class). -/
inductive TypeId where
  | cls (c : PyClass)
  | unionForm
deriving DecidableEq, Repr

/-- `get_type_class` from `pyserial/type_processing.py`: the unsubscripted
origin if the type is subscripted, else the type itself. -/
def get_type_class : PyTy → TypeId
  | .cls c => .cls c
  | .generic o _ => .cls o
  | .union _ => .unionForm

/-- `is_optional` from `pyserial/type_processing.py`: the origin is `Union`
and `NoneType` is among the arguments. -/
def is_optional : PyTy → Bool
  | .union ms => ms.any isNoneTy
  | _ => false

/-- `is_singular_optional` from `pyserial/type_processing.py`: exactly two
arguments and optional. -/
def is_singular_optional (t : PyTy) : Bool :=
  (get_args t).length == 2 && is_optional t

/-- One element of the list produced by `type_to_list`: a bare type, or a
`(type, None)` tuple for a singular optional. -/
inductive Layer where
  | plain (t : TypeId)
  | opt (t : TypeId)
deriving DecidableEq, Repr

/-- The `ValueError` message of `type_to_list`. -/
def unionErrMsg : String :=
  "Can only create linear lists, so Unions (Except with `NoneType`) are prohibited."

/-- `type_to_list` from `pyserial/type_processing.py`.  If the type is a
singular optional (a two-member union containing `NoneType`), unwrap to its
first non-`NoneType` argument and emit an optional layer for it, else emit
a plain layer carrying `get_type_class`; then recurse into a single type
argument, and fail with `ValueError` on two or more arguments.

The source branches on `is_singular_optional` / `len(get_args(...))`; this
translation spells those tests out as exhaustive constructor patterns so
that the recursion is structural: a non-union type is never singular
optional, a two-member union is singular optional exactly when one member
is `NoneType`, and the unwrapped member's layer and arguments follow
`get_type_class` / `get_args` case by case.  The unwrap duplicated across
the two branches is the source's single `next(arg for arg in get_args
if arg is not NoneType)`. -/
def type_to_list : PyTy → Except PyErr (List Layer)
  | .cls c => .ok [.plain (.cls c)]
  | .generic o [] => .ok [.plain (.cls o)]
  | .generic o [a] => do
      let rest ← type_to_list a
      .ok (.plain (.cls o) :: rest)
  | .generic _ (_ :: _ :: _) => .error (.valueError unionErrMsg)
  | .union [] => .ok [.plain .unionForm]
  | .union [a] => do
      let rest ← type_to_list a
      .ok (.plain .unionForm :: rest)
  | .union [a, b] =>
      if isNoneTy a || isNoneTy b then
        -- singular optional: unwrap to the first non-`NoneType` member
        if !(isNoneTy a) then
          match a with
          | .cls c => .ok [.opt (.cls c)]
          | .generic o [] => .ok [.opt (.cls o)]
          | .generic o [x] => do
              let rest ← type_to_list x
              .ok (.opt (.cls o) :: rest)
          | .generic _ (_ :: _ :: _) => .error (.valueError unionErrMsg)
          | .union [] => .ok [.opt .unionForm]
          | .union [x] => do
              let rest ← type_to_list x
              .ok (.opt .unionForm :: rest)
          | .union (_ :: _ :: _) => .error (.valueError unionErrMsg)
        else if !(isNoneTy b) then
          match b with
          | .cls c => .ok [.opt (.cls c)]
          | .generic o [] => .ok [.opt (.cls o)]
          | .generic o [x] => do
              let rest ← type_to_list x
              .ok (.opt (.cls o) :: rest)
          | .generic _ (_ :: _ :: _) => .error (.valueError unionErrMsg)
          | .union [] => .ok [.opt .unionForm]
          | .union [x] => do
              let rest ← type_to_list x
              .ok (.opt .unionForm :: rest)
          | .union (_ :: _ :: _) => .error (.valueError unionErrMsg)
        else
          -- both members are `NoneType`: the source's generator is exhausted
          .error .stopIteration
      else
        .error (.valueError unionErrMsg)
  | .union (_ :: _ :: _ :: _) => .error (.valueError unionErrMsg)

/-! ## Python value operations

Builtin behaviours used by the conversion code: iteration, the builtin
constructors `str`/`int`/`float`/`list`/`tuple`/`dict` called with one
argument, attribute access and dict subscription. -/

/-- The class name shown in a dataclass `repr`. -/
def reprClsName : PyClass → String
  | .recC n => n
  | .serializableC => "Serializable"
  | _ => "object"

-- Python `str()`/`repr()` rendering.  Exact for strings, integers and
-- `None` (the only values any claim ever stringifies); container and float
-- rendering is a best-effort model present for totality only.
mutual

/-- `repr(value)`. -/
def pyRepr : PyVal → String
  | .vstr s => "'" ++ s ++ "'"
  | .vint n => toString n
  | .vfloat q => if q.den == 1 then toString q.num ++ ".0" else toString q.num ++ "/" ++ toString q.den
  | .vnone => "None"
  | .vlist xs => "[" ++ String.intercalate ", " (pyReprList xs) ++ "]"
  | .vtuple xs =>
      "(" ++ String.intercalate ", " (pyReprList xs) ++ (if xs.length == 1 then ",)" else ")")
  | .vdict kvs => "\x7b" ++ String.intercalate ", " (pyReprKVs kvs) ++ "\x7d"
  | .vrec c attrs => reprClsName c ++ "(" ++ String.intercalate ", " (pyReprAttrs attrs) ++ ")"

/-- `repr` of the elements of a list. -/
def pyReprList : List PyVal → List String
  | [] => []
  | x :: xs => pyRepr x :: pyReprList xs

/-- `repr` of the entries of a dict. -/
def pyReprKVs : List (String × PyVal) → List String
  | [] => []
  | (k, v) :: rest => ("'" ++ k ++ "': " ++ pyRepr v) :: pyReprKVs rest

/-- The `name=value` parts of a dataclass `repr`. -/
def pyReprAttrs : List (String × PyVal) → List String
  | [] => []
  | (k, v) :: rest => (k ++ "=" ++ pyRepr v) :: pyReprAttrs rest

end

/-- `str(value)`: identity on strings, else the `repr`-style rendering. -/
def pyStrOf : PyVal → String
  | .vstr s => s
  | v => pyRepr v

/-- Python iteration `for item in value`: list/tuple elements, the characters
of a string, the keys of a dict; everything else raises `TypeError`. -/
def pyIter : PyVal → Except PyErr (List PyVal)
  | .vlist xs => .ok xs
  | .vtuple xs => .ok xs
  | .vstr s => .ok (s.data.map (fun c => .vstr (String.singleton c)))
  | .vdict kvs => .ok (kvs.map (fun p => .vstr p.1))
  | _ => .error (.typeError "object is not iterable")

/-- `int(value)`: identity on ints, truncation toward zero on floats,
base-10 parse (strip, optional sign) on strings, `TypeError` otherwise.
(Underscore digit grouping is not modelled.) -/
def pyIntOf : PyVal → Except PyErr PyVal
  | .vint n => .ok (.vint n)
  | .vfloat q => .ok (.vint (q.num / (q.den : Int)))
  | .vstr s =>
      let s' := s.trim
      let core := if s'.startsWith "-" || s'.startsWith "+" then s'.drop 1 else s'
      match core.toNat? with
      | some n => .ok (.vint (if s'.startsWith "-" then -(n : Int) else (n : Int)))
      | none => .error (.valueError ("invalid literal for int() with base 10: " ++ s))
  | _ => .error (.typeError "int() argument must be a string or a number")

/-- Parse the plain-decimal fragment of Python float literals:
optional sign, digits, optional dot and fraction digits. -/
def parseDecimal (s : String) : Option Rat :=
  let s' := s.trim
  let neg := s'.startsWith "-"
  let core := if neg || s'.startsWith "+" then s'.drop 1 else s'
  let mag : Option Rat :=
    match core.splitOn "." with
    | [a] => (a.toNat?).map (fun n => (n : Rat))
    | [a, b] =>
        if a.isEmpty && b.isEmpty then none
        else
          let ia : Option Nat := if a.isEmpty then some 0 else a.toNat?
          let fb : Option (Nat × Nat) :=
            if b.isEmpty then some (0, 0) else (b.toNat?).map (fun n => (n, b.length))
          match ia, fb with
          | some n, some (f, k) => some ((n : Rat) + (f : Rat) / ((10 : Rat) ^ k))
          | _, _ => none
    | _ => none
  mag.map (fun q => if neg then -q else q)

/-- `float(value)`: identity on floats, exact on ints, decimal parse on
strings, `TypeError` otherwise.  (Exponents, `inf`/`nan` not modelled.) -/
def pyFloatOf : PyVal → Except PyErr PyVal
  | .vfloat q => .ok (.vfloat q)
  | .vint n => .ok (.vfloat (n : Rat))
  | .vstr s =>
      match parseDecimal s with
      | some q => .ok (.vfloat q)
      | none => .error (.valueError ("could not convert string to float: " ++ s))
  | _ => .error (.typeError "float() argument must be a string or a number")

/-- `list(value)` / `tuple(value)`: collect the iteration of the argument. -/
def pyListOf (v : PyVal) : Except PyErr PyVal := do
  let elems ← pyIter v
  return .vlist elems

def pyTupleOf (v : PyVal) : Except PyErr PyVal := do
  let elems ← pyIter v
  return .vtuple elems

/-- `dict(value)`: copy of a dict; building a dict from a pair iterable is
outside what any claim exercises and is modelled as the `TypeError` raised
for non-pair iterables. -/
def pyDictOf : PyVal → Except PyErr PyVal
  | .vdict kvs => .ok (.vdict kvs)
  | _ => .error (.typeError "cannot convert to dict")

/-- A Python class applied to one positional argument, as the caster builders
do in their direct-constructor fallback.  Record classes never reach this
fallback (both builders route them to `deserialize` first); `NoneType`
accepts no argument. -/
def pyCtor : PyClass → PyVal → Except PyErr PyVal
  | .strC, v => .ok (.vstr (pyStrOf v))
  | .intC, v => pyIntOf v
  | .floatC, v => pyFloatOf v
  | .listC, v => pyListOf v
  | .tupleC, v => pyTupleOf v
  | .dictC, v => pyDictOf v
  | .noneType, _ => .error (.typeError "NoneType takes no arguments")
  | .serializableC, _ => .error (.typeError "Serializable() takes no positional arguments")
  | .recC _, _ => .error (.typeError "positional dataclass construction not reached by the conversion core")

/-- `data[key]` on a wire map: `KeyError` when the key is absent. -/
def dictGet (kvs : List (String × PyVal)) (k : String) : Except PyErr PyVal :=
  match kvs.find? (fun p => p.1 == k) with
  | some p => .ok p.2
  | none => .error (.keyError k)

/-- `self.__getattribute__(name)`. -/
def getAttr (attrs : List (String × PyVal)) (k : String) : Except PyErr PyVal :=
  match attrs.find? (fun p => p.1 == k) with
  | some p => .ok p.2
  | none => .error (.attributeError k)

/-! ## Field metadata and record schemas (`pyserial/serial_field.py`)

A dataclass field as `dataclasses.fields` reports it, together with the
extra `SerialField` attributes. -/

structure SField where
  /-- `field_.name`. -/
  name : String
  /-- `isinstance(field_, SerialField)`: whether the field was declared
  through `SerialField` rather than a plain dataclass field. -/
  serialField : Bool
  /-- The `SerialField.serialize` inclusion flag. -/
  serialize : Bool
  /-- `field_.init`: part of the construction interface. -/
  init : Bool
  /-- `SerialField.caster`: the explicit caster override, if any. -/
  caster : Option (PyVal → Except PyErr PyVal)
  /-- `field_.type`: the declared type annotation. -/
  ftype : PyTy
  /-- The value the constructor supplies when the argument is omitted
  (`default` or `default_factory` result), if any. -/
  default : Option PyVal

/-- The schemas of the user-declared record classes: class name to the
ordered result of `dataclasses.fields`. -/
def Env : Type := List (String × List SField)

/-- `dataclasses.fields(cls)`: the schema of a record class; the bare
`Serializable` mixin is an empty dataclass; other classes raise `TypeError`. -/
def fieldsOf (env : Env) (c : PyClass) : Except PyErr (List SField) :=
  match c with
  | .recC n =>
      match env.find? (fun p => p.1 == n) with
      | some p => .ok p.2
      | none => .error (.typeError "fields() should be called with a dataclass type or instance")
  | .serializableC => .ok []
  | _ => .error (.typeError "fields() should be called with a dataclass type or instance")

/-- The attribute assignments a dataclass `__init__` performs, in field
order: each `init` field takes the keyword value, else its default, else
`TypeError`; non-`init` fields carry their default when one exists. -/
def constructAttrs (flds : List SField) (kwargs : List (String × PyVal)) :
    Except PyErr (List (String × PyVal)) :=
  match flds with
  | [] => .ok []
  | f :: rest =>
      if f.init then
        match (kwargs.find? (fun p => p.1 == f.name)).map Prod.snd with
        | some v => do
            let tail ← constructAttrs rest kwargs
            .ok ((f.name, v) :: tail)
        | none =>
            match f.default with
            | some d => do
                let tail ← constructAttrs rest kwargs
                .ok ((f.name, d) :: tail)
            | none => .error (.typeError ("missing required argument: " ++ f.name))
      else
        match f.default with
        | some d => do
            let tail ← constructAttrs rest kwargs
            .ok ((f.name, d) :: tail)
        | none => constructAttrs rest kwargs

/-- `cls(**deserialized_data)`: the dataclass constructor applied to keyword
arguments.  Callers only pass keywords naming `init` fields, so the
unexpected-keyword `TypeError` cannot fire and is not modelled. -/
def construct (c : PyClass) (flds : List SField) (kwargs : List (String × PyVal)) :
    Except PyErr PyVal := do
  let attrs ← constructAttrs flds kwargs
  return .vrec c attrs

/-! ## Default registries

`_SERIALIZERS` after module import: the literal initial list from
`pyserial/serialization.py` — whose first entry's key slot is the object
`None`, not the class `NoneType` — followed by the `@serializer_func`
registrations of `list`, `tuple` (the recursive element serializer) and,
from `pyserial/serializable.py`, `Serializable` (delegation to
`.serialize()`).  The `Path` registration is outside the modelled value
universe and omitted; it sits behind the `None`-keyed entry and is
unreachable in every modelled scan. -/

/-- Names for the serializer functions registered at import time. -/
inductive SerTag where
  | iterSer
  | recSer
deriving DecidableEq, Repr

/-- The initial `_SERIALIZERS` literal. -/
def initialSerializers : List (Option PyClass × Option SerTag) :=
  [(none, none), (some .strC, none), (some .intC, none), (some .floatC, none)]

/-- `_SERIALIZERS` after import-time registration. -/
def defaultSerializers : List (Option PyClass × Option SerTag) :=
  add_serializer pySub .serializableC (some .recSer)
    (add_serializer pySub .tupleC (some .iterSer)
      (add_serializer pySub .listC (some .iterSer) initialSerializers))

/-- `_CASTERS` from `pyserial/conversion/casting.py`: the default entries all
store `None` (pass-through marker that `get_caster` then overrides with the
constructor fallback).  The only function-valued registration in the source
is the `datetime` one, outside the modelled value universe and omitted, so
the stored-function type is uninhabited. -/
def defaultCasters : List (PyClass × Option Empty) :=
  [(.noneType, none), (.strC, none), (.intC, none), (.floatC, none)]

/-- `_get_caster` from `pyserial/conversion/casting.py`: scan for the first
superclass key; return the stored value, or `None` when nothing matches
(the source conflates a stored `None` with no match). -/
def _get_caster {V : Type} (sub : PyClass → PyClass → Bool) (t : PyClass) :
    List (PyClass × Option V) → Option V
  | [] => none
  | (k, c) :: rest => if sub t k then c else _get_caster sub t rest

/-- `issubclass(c, Iterable) and not issubclass(c, str)`: the container test
in both caster builders.  The `typing.Union` special form is not a class, so
builtin `issubclass` raises. -/
def issubclassIterNotStr : TypeId → Except PyErr Bool
  | .unionForm => .error (.typeError "issubclass() arg 1 must be a class")
  | .cls c =>
      .ok ((c == .listC || c == .tupleC || c == .dictC || c == .strC) && !(c == .strC))

/-- `optional_caster` from `pyserial/conversion/casting.py`: `None` in,
`None` out, without invoking the wrapped caster. -/
def optional_caster (f : PyVal → Except PyErr PyVal) (v : PyVal) : Except PyErr PyVal :=
  match v with
  | .vnone => .ok .vnone
  | v => f v

/-! ## The caster builders and the record protocol

`pyserial/casting.py` (first generation), `pyserial/conversion/casting.py`
(second generation) and `pyserial/serializable.py` recurse through one
another (a record field's caster may be a nested record's `deserialize`).
The recursion depth is bounded by an explicit fuel parameter, decremented on
every call; exhausted fuel models CPython's `RecursionError`. -/

/-- A caster: wire value to native value. -/
abbrev Caster : Type := PyVal → Except PyErr PyVal

/-- Split a layer into its type identity and optionality
(`if isinstance(current_type, tuple)` in the second-generation builder). -/
def decomposeLayer : Layer → TypeId × Bool
  | .plain t => (t, false)
  | .opt t => (t, true)

/-- `data[name]` during `deserialize`; the wire value is a dict in every
modelled call. -/
def dictGetV : PyVal → String → Except PyErr PyVal
  | .vdict kvs, k => dictGet kvs k
  | _, _ => .error (.typeError "subscription of a non-dict wire value")

mutual

/-- `get_caster` from `pyserial/casting.py` applied to a layer identity
(the objects `get_caster_from_type_list` passes it): `Serializable`
subclasses get their `deserialize`, every other class is used as the caster
itself (`isinstance(type_, type)` holds); the `typing.Union` special form
is not a class, so the leading `issubclass` raises. -/
def old_get_caster_id (fuel : Nat) (env : Env) (t : TypeId) : Except PyErr Caster :=
  match fuel with
  | 0 => .error .recursionDepth
  | fuel + 1 =>
      match t with
      | .unionForm => .error (.typeError "issubclass() arg 1 must be a class")
      | .cls c =>
          if pySub c .serializableC then
            .ok (fun v => deserializeRec fuel env c v)
          else
            .ok (pyCtor c)

/-- `get_caster` from `pyserial/casting.py` applied to a declared field type.
For subscripted generics and unions the leading
`issubclass(type_, Serializable)` raises `TypeError` (builtin `issubclass`
rejects non-class arguments), so the complex-type fallback is unreachable
for them. -/
def old_get_caster_ty (fuel : Nat) (env : Env) (t : PyTy) : Except PyErr Caster :=
  match fuel with
  | 0 => .error .recursionDepth
  | fuel + 1 =>
      match t with
      | .cls c =>
          if pySub c .serializableC then
            .ok (fun v => deserializeRec fuel env c v)
          else
            .ok (pyCtor c)
      | .generic _ _ => .error (.typeError "issubclass() arg 1 must be a class")
      | .union _ => .error (.typeError "issubclass() arg 1 must be a class")

/-- `get_caster_from_type_list` from `pyserial/casting.py`.  An optional
`(type, None)` layer is not unwrapped by this generation: the tuple reaches
builtin `issubclass`, which raises.  The unpacking `ValueError` of an empty
layer list surfaces, as in the source, when the built caster is demanded
for an element. -/
def old_cast_list (fuel : Nat) (env : Env) (layers : List Layer) (v : PyVal) :
    Except PyErr PyVal :=
  match fuel with
  | 0 => .error .recursionDepth
  | fuel + 1 =>
      match layers with
      | [] => .error (.valueError "not enough values to unpack (expected at least 1, got 0)")
      | l :: rest =>
          match l with
          | .opt _ => .error (.typeError "issubclass() arg 1 must be a class")
          | .plain tid => do
              if (← issubclassIterNotStr tid) then
                let elems ← pyIter v
                let items ← elems.mapM (fun item => old_cast_list fuel env rest item)
                let cf ← old_get_caster_id fuel env tid
                cf (.vlist items)
              else
                let cf ← old_get_caster_id fuel env tid
                cf v

/-- `get_caster` from `pyserial/conversion/casting.py` on an unsubscripted
type identity (`get_origin` is `None`): registry lookup first — where the
`typing.Union` special form makes the scan's `issubclass` raise — then the
`Serializable` protocol, then the class itself as constructor (every
modelled class is callable, so the final `ValueError` cannot fire). -/
def new_get_caster_id (fuel : Nat) (env : Env) (t : TypeId) : Except PyErr Caster :=
  match fuel with
  | 0 => .error .recursionDepth
  | fuel + 1 =>
      match t with
      | .unionForm => .error (.typeError "issubclass() arg 1 must be a class")
      | .cls c =>
          match _get_caster pySub c defaultCasters with
          | some f => f.elim
          | none =>
              if pySub c .serializableC then
                .ok (fun v => deserializeRec fuel env c v)
              else
                .ok (pyCtor c)

/-- `get_caster` from `pyserial/conversion/casting.py` on a full type
expression: subscripted types go through `type_to_list` and
`get_caster_from_type_list` (`get_caster_for_generic_type`), with
decomposition failures rewrapped as `ValueError`. -/
def new_get_caster_ty (fuel : Nat) (env : Env) (t : PyTy) : Except PyErr Caster :=
  match fuel with
  | 0 => .error .recursionDepth
  | fuel + 1 =>
      match t with
      | .cls c => new_get_caster_id fuel env (.cls c)
      | t =>
          match type_to_list t with
          | .ok layers => .ok (fun v => new_cast_list fuel env layers v)
          | .error (.valueError _) => .error (.valueError "Cannot get deserializer for the type.")
          | .error e => .error e

/-- `get_caster_from_type_list` from `pyserial/conversion/casting.py`:
unwrap an optional layer and remember its flag; containers map the caster
built from the remaining layers over the elements and hand the native list
to the layer's own resolved caster; leaves hand the raw value to it; the
optional flag wraps the built function in `optional_caster`. -/
def new_cast_list (fuel : Nat) (env : Env) (layers : List Layer) (v : PyVal) :
    Except PyErr PyVal :=
  match fuel with
  | 0 => .error .recursionDepth
  | fuel + 1 =>
      match layers with
      | [] => .error (.valueError "not enough values to unpack (expected at least 1, got 0)")
      | l :: rest =>
          let (tid, opt) := decomposeLayer l
          let inner : Caster := fun value => do
            if (← issubclassIterNotStr tid) then
              let elems ← pyIter value
              let items ← elems.mapM (fun item => new_cast_list fuel env rest item)
              let cf ← new_get_caster_id fuel env tid
              cf (.vlist items)
            else
              let cf ← new_get_caster_id fuel env tid
              cf value
          if opt then optional_caster inner v else inner v

/-- `Serializable.deserialize` from `pyserial/serializable.py`: build the
keyword arguments from the schema then invoke the constructor. -/
def deserializeRec (fuel : Nat) (env : Env) (c : PyClass) (data : PyVal) :
    Except PyErr PyVal :=
  match fuel with
  | 0 => .error .recursionDepth
  | fuel + 1 => do
      let flds ← fieldsOf env c
      let avail := (flds.filter (fun f => f.init)).map (fun f => f.name)
      let kwargs ← deserializeFields fuel env avail flds data
      construct c flds kwargs

/-- The field loop of `Serializable.deserialize`: skip non-`SerialField`
fields and fields outside the construction interface; resolve the explicit
caster or derive one from the declared type (only `ValueError` is rewrapped
into the field-naming message; other exceptions propagate); then subscript
the wire map — a missing key raises `KeyError` — and apply the caster. -/
def deserializeFields (fuel : Nat) (env : Env) (avail : List String)
    (flds : List SField) (data : PyVal) : Except PyErr (List (String × PyVal)) :=
  match fuel with
  | 0 => .error .recursionDepth
  | fuel + 1 =>
      match flds with
      | [] => .ok []
      | f :: rest =>
          if !f.serialField then deserializeFields fuel env avail rest data
          else if !(avail.contains f.name) then deserializeFields fuel env avail rest data
          else do
            let caster ←
              match f.caster with
              | some cst => Except.ok cst
              | none =>
                  match old_get_caster_ty fuel env f.ftype with
                  | .ok cst => Except.ok cst
                  | .error (.valueError _) =>
                      Except.error (.valueError
                        ("There were issues trying to get an implicit deserializer for the field "
                          ++ f.name))
                  | .error e => Except.error e
            let wv ← dictGetV data f.name
            let dv ← caster wv
            let tail ← deserializeFields fuel env avail rest data
            .ok ((f.name, dv) :: tail)

/-- `serialize` from `pyserial/serialization.py`: resolve a serializer for
the runtime type; `None` passes the value through, the list/tuple
serializer recurses elementwise, the `Serializable` serializer delegates to
the record's own `serialize`. -/
def serializeV (fuel : Nat) (env : Env) (regs : List (Option PyClass × Option SerTag))
    (v : PyVal) : Except PyErr PyVal :=
  match fuel with
  | 0 => .error .recursionDepth
  | fuel + 1 => do
      match ← get_serializer pySub (typeOf v) regs with
      | none => .ok v
      | some .iterSer => do
          let elems ← pyIter v
          let out ← serializeVList fuel env regs elems
          .ok (.vlist out)
      | some .recSer => recordSerialize fuel env regs v

/-- The element loop of the registered list/tuple serializer. -/
def serializeVList (fuel : Nat) (env : Env) (regs : List (Option PyClass × Option SerTag))
    (vs : List PyVal) : Except PyErr (List PyVal) :=
  match fuel with
  | 0 => .error .recursionDepth
  | fuel + 1 =>
      match vs with
      | [] => .ok []
      | x :: xs => do
          let sx ← serializeV fuel env regs x
          let rest ← serializeVList fuel env regs xs
          .ok (sx :: rest)

/-- `Serializable.serialize` from `pyserial/serializable.py`: serialize the
current value of every `SerialField` with the inclusion flag set, into a
wire map keyed by field name in schema order. -/
def recordSerialize (fuel : Nat) (env : Env) (regs : List (Option PyClass × Option SerTag))
    (v : PyVal) : Except PyErr PyVal :=
  match fuel with
  | 0 => .error .recursionDepth
  | fuel + 1 =>
      match v with
      | .vrec c attrs => do
          let flds ← fieldsOf env c
          let kvs ← recordSerializeFields fuel env regs flds attrs
          .ok (.vdict kvs)
      | _ => .error (.typeError "serialize() called on a non-Serializable value")

/-- The field loop of `Serializable.serialize`. -/
def recordSerializeFields (fuel : Nat) (env : Env)
    (regs : List (Option PyClass × Option SerTag)) (flds : List SField)
    (attrs : List (String × PyVal)) : Except PyErr (List (String × PyVal)) :=
  match fuel with
  | 0 => .error .recursionDepth
  | fuel + 1 =>
      match flds with
      | [] => .ok []
      | f :: rest =>
          if !(f.serialField && f.serialize) then
            recordSerializeFields fuel env regs rest attrs
          else do
            let attr ← getAttr attrs f.name
            let sv ← serializeV fuel env regs attr
            let tail ← recordSerializeFields fuel env regs rest attrs
            .ok ((f.name, sv) :: tail)

end

/-! ## Variant adapter (`pyserial/conversion/enum_conversion.py`)

An enumerated type is its ordered list of declared members, each a
`(name, underlying value)` pair; the member object is modelled by that
pair.  Only the by-name strategy is claimed; the by-value strategy would
additionally need value equality. -/

structure EnumDef where
  members : List (String × PyVal)

/-- `SerializableEnumByName.deserialize`: `cls[value]`, the `Enum` member
lookup by declared name, raising `KeyError` when no member has that name
(only strings can equal the stored names). -/
def SerializableEnumByName.deserialize (e : EnumDef) (v : PyVal) :
    Except PyErr (String × PyVal) :=
  match v with
  | .vstr s =>
      match e.members.find? (fun m => m.1 == s) with
      | some m => .ok m
      | none => .error (.keyError s)
  | _ => .error (.keyError (pyRepr v))

/-! ## The badness predicate for claim C5

A union with two or more concrete (non-`NoneType`) alternatives, at any
nesting depth. -/

mutual

/-- The type expression contains, at some depth, a union of two or more
concrete (non-absence) alternatives. -/
def containsBadUnion : PyTy → Bool
  | .cls _ => false
  | .generic _ args => containsBadUnionList args
  | .union ms =>
      decide (2 ≤ (ms.filter (fun m => !(isNoneTy m))).length) || containsBadUnionList ms

/-- `containsBadUnion` over a list of type expressions. -/
def containsBadUnionList : List PyTy → Bool
  | [] => false
  | t :: ts => containsBadUnion t || containsBadUnionList ts

end

/-! # Theorems for the claims -/

/-- Register a sequence of `(type, transform)` pairs into a registry, in
order, as the permutation test of `test_serialization.py` does. -/
def register_sequence {α V : Type} [DecidableEq α] (sub : α → α → Bool)
    (seq : List (α × V)) (start : List (Option α × V)) : List (Option α × V) :=
  seq.foldl (fun r p => add_serializer sub p.1 p.2 r) start

/-- C1: for any three types `a ⊂ b ⊂ c` (strict subclass chain) with three
transforms, registering them into an initially empty registry in any of the
6 possible orders makes `get_serializer` return, for each of the three
types, exactly the transform registered for that exact type. -/
theorem C1_registry_permutation_invariance {α V : Type} [DecidableEq α]
    (sub : α → α → Bool) (a b c : α) (fa fb fc : V)
    (haa : sub a a = true) (hbb : sub b b = true) (hcc : sub c c = true)
    (hab : sub a b = true) (hbc : sub b c = true) (hac : sub a c = true)
    (hba : sub b a = false) (hca : sub c a = false) (hcb : sub c b = false)
    (hne1 : a ≠ b) (hne2 : a ≠ c) (hne3 : b ≠ c)
    (seq : List (α × V))
    (hseq : seq ∈ [[(a, fa), (b, fb), (c, fc)], [(a, fa), (c, fc), (b, fb)],
        [(b, fb), (a, fa), (c, fc)], [(b, fb), (c, fc), (a, fa)],
        [(c, fc), (a, fa), (b, fb)], [(c, fc), (b, fb), (a, fa)]]) :
    get_serializer sub a (register_sequence sub seq []) = .ok fa ∧
    get_serializer sub b (register_sequence sub seq []) = .ok fb ∧
    get_serializer sub c (register_sequence sub seq []) = .ok fc := by
  simp only [List.mem_cons, List.mem_singleton, List.not_mem_nil, or_false] at hseq
  rcases hseq with h | h | h | h | h | h <;> subst h <;>
    simp [register_sequence, add_serializer, get_serializer,
      haa, hbb, hcc, hab, hbc, hac, hba, hca, hcb,
      hne1, hne2, hne3, Ne.symm hne1, Ne.symm hne2, Ne.symm hne3]

/-- Witness for C1 at a concrete chain `2 ⊂ 1 ⊂ 0` (ordered by `≥`) with
transforms `10, 20, 30`, registered in the order `b, c, a`. -/
theorem C1_registry_permutation_invariance_witness :
    get_serializer (fun x y => decide (y ≤ x)) 2
        (register_sequence (fun x y => decide (y ≤ x)) [(1, 20), (0, 30), (2, 10)] []) = .ok 10 ∧
    get_serializer (fun x y => decide (y ≤ x)) 1
        (register_sequence (fun x y => decide (y ≤ x)) [(1, 20), (0, 30), (2, 10)] []) = .ok 20 ∧
    get_serializer (fun x y => decide (y ≤ x)) 0
        (register_sequence (fun x y => decide (y ≤ x)) [(1, 20), (0, 30), (2, 10)] []) = .ok 30 :=
  C1_registry_permutation_invariance (fun x y => decide (y ≤ x)) 2 1 0 10 20 30
    (by decide) (by decide) (by decide) (by decide) (by decide) (by decide)
    (by decide) (by decide) (by decide)
    (by decide) (by decide) (by decide)
    [(1, 20), (0, 30), (2, 10)] (by simp)

/-! ## C2: missing wire-map keys during `deserialize` -/

/-- A record field `f : int` declared through `SerialField`, with the given
default (or none). -/
def fieldIntF (d : Option PyVal) : SField :=
  { name := "f", serialField := true, serialize := true, init := true,
    caster := none, ftype := .cls .intC, default := d }

/-- Two record classes: `WithDefault` declares `f: int = SerialField(default=1)`,
`NoDefault` declares `f: int = SerialField()`. -/
def envC2 : Env :=
  [("WithDefault", [fieldIntF (some (.vint 1))]), ("NoDefault", [fieldIntF none])]

/-- C2, what the code actually does: `deserialize` on a wire map missing the
key of a `SerialField` that is part of the construction interface raises
`KeyError` from the unguarded `data[field_.name]` subscription — even when
the field has a default value, in which case the claim (and the method's
own docstring) says the default is used. -/
theorem C2_missing_key_keyerror :
    deserializeRec 9 envC2 (.recC "WithDefault") (.vdict []) = .error (.keyError "f") ∧
    deserializeRec 9 envC2 (.recC "NoDefault") (.vdict []) = .error (.keyError "f") :=
  ⟨rfl, rfl⟩

/-! ## C3: the round-trip record -/

/-- The record `A3` with `a: str = SerialField()` and
`b: List[int] = SerialField(caster=list)`. -/
def schemaA3 : List SField :=
  [{ name := "a", serialField := true, serialize := true, init := true,
     caster := none, ftype := .cls .strC, default := none },
   { name := "b", serialField := true, serialize := true, init := true,
     caster := some (pyCtor .listC), ftype := .generic .listC [.cls .intC], default := none }]

def envA3 : Env := [("A3", schemaA3)]

/-- The instance `A3(a="1", b=[1, 2, 3])`. -/
def xA3 : PyVal := .vrec (.recC "A3") [("a", .vstr "1"), ("b", .vlist [.vint 1, .vint 2, .vint 3])]

/-- The wire map the claim expects `serialize` to produce. -/
def wireA3 : PyVal := .vdict [("a", .vstr "1"), ("b", .vlist [.vint 1, .vint 2, .vint 3])]

/-- C3, what the code actually does: `serialize` on the claimed instance does
not produce the claimed wire map — the very first field's `serialize(attr)`
hits the default registry's `(None, None)` entry and `issubclass(str, None)`
raises `TypeError` — while the `deserialize` half of the claim holds: on the
claimed wire map it reconstructs the instance. -/
theorem C3_serialize_raises_deserialize_roundtrips :
    recordSerialize 9 envA3 defaultSerializers xA3 =
      .error (.typeError "issubclass() arg 2 must be a class, a tuple of classes, or a union") ∧
    deserializeRec 9 envA3 (.recC "A3") wireA3 = .ok xA3 :=
  ⟨rfl, rfl⟩

/-! ## C4: concrete decompositions -/

/-- C4: `type_to_list` flattens `List[Tuple[str]]` outer-to-inner with no
optional layer, decomposes `Optional[int]` to a single optional leaf layer,
and `List[Optional[int]]` to a plain list layer over an optional leaf. -/
theorem C4_type_to_list_examples :
    type_to_list (.generic .listC [.generic .tupleC [.cls .strC]]) =
      .ok [.plain (.cls .listC), .plain (.cls .tupleC), .plain (.cls .strC)] ∧
    type_to_list (.union [.cls .intC, noneTy]) = .ok [.opt (.cls .intC)] ∧
    type_to_list (.generic .listC [.union [.cls .intC, noneTy]]) =
      .ok [.plain (.cls .listC), .opt (.cls .intC)] :=
  ⟨rfl, rfl, rfl⟩

/-! ## C6: optional short-circuiting in the second-generation caster -/

/-- C6: the caster built from layers `(list, (str, None))` maps
`[1, null, 3]` to `["1", null, "3"]`; and `optional_caster` maps `null` to
`null` for every wrapped function and passes every non-`null` value to the
wrapped function. -/
theorem C6_optional_layer_short_circuit :
    new_cast_list 5 [] [.plain (.cls .listC), .opt (.cls .strC)]
        (.vlist [.vint 1, .vnone, .vint 3]) = .ok (.vlist [.vstr "1", .vnone, .vstr "3"]) ∧
    (∀ f : Caster, optional_caster f .vnone = .ok .vnone) ∧
    (∀ (f : Caster) (v : PyVal), v ≠ .vnone → optional_caster f v = f v) := by
  refine ⟨rfl, fun f => rfl, fun f v h => ?_⟩
  cases v <;> first | rfl | exact absurd rfl h

/-- Witness for C6's hypothesised part at the concrete wrapped function
`str` and the non-`null` input `7`. -/
theorem C6_optional_layer_short_circuit_witness :
    optional_caster (pyCtor .strC) (.vint 7) = pyCtor .strC (.vint 7) :=
  C6_optional_layer_short_circuit.2.2 (pyCtor .strC) (.vint 7)
    (fun h => PyVal.noConfusion h)

/-! ## C7: leaf pass-through on the default serializer registry -/

/-- C7, what the code actually does: with the default `_SERIALIZERS` — whose
first entry is keyed by the object `None` — `serialize` raises `TypeError`
from `issubclass(type(value), None)` for every value whatsoever, instead of
passing `str`/`int`/`float` values through unchanged as their registered
`None` transforms (and the registry's own docstring) promise. -/
theorem C7_default_registry_serialize_raises :
    ∀ (fuel : Nat) (env : Env) (v : PyVal),
      serializeV (fuel + 1) env defaultSerializers v =
        .error (.typeError "issubclass() arg 2 must be a class, a tuple of classes, or a union") :=
  fun _ _ _ => rfl

/-! ## C9: the by-name variant adapter -/

/-- `find?` by name hits exactly the member with that declared name when
declared names are distinct. -/
theorem find_name_eq_some {ms : List (String × PyVal)} {s : String} {val : PyVal}
    (hmem : (s, val) ∈ ms) (hnodup : (ms.map Prod.fst).Nodup) :
    ms.find? (fun m => m.1 == s) = some (s, val) := by
  induction ms with
  | nil => simp at hmem
  | cons p rest ih =>
      rw [List.map_cons, List.nodup_cons] at hnodup
      rcases List.mem_cons.mp hmem with h | h
      · subst h
        simp [List.find?]
      · have hp : (p.1 == s) = false := by
          simp only [beq_eq_false_iff_ne, ne_eq]
          intro hps
          exact hnodup.1 (hps ▸ List.mem_map.mpr ⟨(s, val), h, rfl⟩)
        simp only [List.find?, hp]
        exact ih h hnodup.2

/-- `find?` by name misses when no member carries that name. -/
theorem find_name_eq_none {ms : List (String × PyVal)} {s : String}
    (hnot : s ∉ ms.map Prod.fst) :
    ms.find? (fun m => m.1 == s) = none := by
  induction ms with
  | nil => rfl
  | cons p rest ih =>
      rw [List.map_cons] at hnot
      have hp : (p.1 == s) = false := by
        simp only [beq_eq_false_iff_ne, ne_eq]
        intro hps
        exact hnot (hps ▸ List.mem_cons_self _ _)
      simp only [List.find?, hp]
      exact ih (fun hmem => hnot (List.mem_cons.mpr (Or.inr hmem)))

/-- C9: on an enumerated type with distinct declared member names, the
by-name `deserialize` maps a declared name to that very member, and any
string matching no declared name to a `KeyError` (the source's
`InvalidVariant`). -/
theorem C9_enum_by_name (e : EnumDef) :
    (∀ (s : String) (val : PyVal), (s, val) ∈ e.members →
        (e.members.map Prod.fst).Nodup →
        SerializableEnumByName.deserialize e (.vstr s) = .ok (s, val)) ∧
    (∀ s : String, s ∉ e.members.map Prod.fst →
        SerializableEnumByName.deserialize e (.vstr s) = .error (.keyError s)) := by
  constructor
  · intro s val hmem hnodup
    show (match e.members.find? (fun m => m.1 == s) with
      | some m => Except.ok m
      | none => Except.error (PyErr.keyError s)) = Except.ok (s, val)
    rw [find_name_eq_some hmem hnodup]
  · intro s hnot
    show (match e.members.find? (fun m => m.1 == s) with
      | some m => Except.ok m
      | none => Except.error (PyErr.keyError s)) = Except.error (PyErr.keyError s)
    rw [find_name_eq_none hnot]

/-- Witness for C9 at the enum `x = 1, y = 2, z = 3`: a declared name and an
unknown name. -/
theorem C9_enum_by_name_witness :
    SerializableEnumByName.deserialize ⟨[("x", .vint 1), ("y", .vint 2), ("z", .vint 3)]⟩
        (.vstr "y") = .ok ("y", .vint 2) ∧
    SerializableEnumByName.deserialize ⟨[("x", .vint 1), ("y", .vint 2), ("z", .vint 3)]⟩
        (.vstr "w") = .error (.keyError "w") :=
  ⟨(C9_enum_by_name ⟨[("x", .vint 1), ("y", .vint 2), ("z", .vint 3)]⟩).1 "y" (.vint 2)
      (by simp) (by simp),
   (C9_enum_by_name ⟨[("x", .vint 1), ("y", .vint 2), ("z", .vint 3)]⟩).2 "w" (by simp)⟩

/-! ## C8: what `deserialize` reads from the wire map -/

/-- The field loop of `deserialize` reads the wire map only at the names of
`SerialField`-declared fields that are in the construction-interface name
list. -/
theorem deserializeFields_congr :
    ∀ (fuel : Nat) (env : Env) (avail : List String) (flds : List SField)
      (d1 d2 : PyVal),
      (∀ f ∈ flds, f.serialField = true → avail.contains f.name = true →
        dictGetV d1 f.name = dictGetV d2 f.name) →
      deserializeFields fuel env avail flds d1 = deserializeFields fuel env avail flds d2 := by
  intro fuel
  induction fuel with
  | zero => intro env avail flds d1 d2 _; rfl
  | succ fuel ih =>
      intro env avail flds d1 d2 hagree
      match flds with
      | [] => rfl
      | f :: rest =>
          have htail : ∀ g ∈ rest, g.serialField = true → avail.contains g.name = true →
              dictGetV d1 g.name = dictGetV d2 g.name :=
            fun g hg => hagree g (List.mem_cons.mpr (Or.inr hg))
          by_cases hs : f.serialField = true
          · by_cases ha : avail.contains f.name = true
            · have hd := hagree f (List.mem_cons_self _ _) hs ha
              simp only [deserializeFields, hs, ha, Bool.not_true, Bool.false_eq_true,
                if_false]
              rw [hd, ih env avail rest d1 d2 htail]
            · have ha' : avail.contains f.name = false := Bool.not_eq_true _ ▸ eq_false_of_ne_true ha
              simp only [deserializeFields, hs, ha', Bool.not_true, Bool.not_false,
                Bool.false_eq_true, if_false, if_true]
              exact ih env avail rest d1 d2 htail
          · have hs' : f.serialField = false := eq_false_of_ne_true hs
            simp only [deserializeFields, hs', Bool.not_false, if_true]
            exact ih env avail rest d1 d2 htail

/-- C8 (amended): the result of `deserialize` depends only on the wire-map
entries under the names of fields that are declared through `SerialField`
and are part of the construction interface; the `serialize` inclusion flag
plays no role, and extra keys are ignored. -/
theorem C8_deserialize_reads_only_serialfield_init_keys
    (fuel : Nat) (env : Env) (c : PyClass) (flds : List SField) (d1 d2 : PyVal)
    (hflds : fieldsOf env c = .ok flds)
    (hagree : ∀ f ∈ flds, f.serialField = true →
      ((flds.filter (fun g => g.init)).map (fun g => g.name)).contains f.name = true →
      dictGetV d1 f.name = dictGetV d2 f.name) :
    deserializeRec fuel env c d1 = deserializeRec fuel env c d2 := by
  match fuel with
  | 0 => rfl
  | fuel + 1 =>
      show (do
          let flds' ← fieldsOf env c
          let avail := (flds'.filter (fun f : SField => f.init)).map (fun f : SField => f.name)
          let kwargs ← deserializeFields fuel env avail flds' d1
          construct c flds' kwargs) = (do
          let flds' ← fieldsOf env c
          let avail := (flds'.filter (fun f : SField => f.init)).map (fun f : SField => f.name)
          let kwargs ← deserializeFields fuel env avail flds' d2
          construct c flds' kwargs)
      rw [hflds]
      show (do
          let kwargs ← deserializeFields fuel env
            ((flds.filter (fun f : SField => f.init)).map (fun f : SField => f.name)) flds d1
          construct c flds kwargs) = _
      rw [deserializeFields_congr fuel env _ flds d1 d2 hagree]
      rfl

/-- The record class `R8` with the single field
`f: int = SerialField(serialize=False)` — in the construction interface but
not marked for serialization. -/
def schemaR8 : List SField :=
  [{ name := "f", serialField := true, serialize := false, init := true,
     caster := none, ftype := .cls .intC, default := none }]

def envR8 : Env := [("R8", schemaR8)]

/-- C8 as stated is false on the code: the two wire maps agree on every key
of a field that is marked for serialization and in the construction
interface (there are none), yet `deserialize` reads the `serialize=False`
field's key and produces different instances. -/
theorem C8_counterexample_serialize_flag_ignored :
    (∀ f ∈ schemaR8, (f.serialize && f.init) = true →
        dictGetV (.vdict [("f", .vint 1)]) f.name = dictGetV (.vdict [("f", .vint 2)]) f.name) ∧
    deserializeRec 9 envR8 (.recC "R8") (.vdict [("f", .vint 1)]) ≠
      deserializeRec 9 envR8 (.recC "R8") (.vdict [("f", .vint 2)]) := by
  constructor
  · intro f hf hflag
    simp only [schemaR8, List.mem_singleton] at hf
    subst hf
    simp at hflag
  · intro h
    have h1 : deserializeRec 9 envR8 (.recC "R8") (.vdict [("f", .vint 1)]) =
        .ok (.vrec (.recC "R8") [("f", .vint 1)]) := rfl
    have h2 : deserializeRec 9 envR8 (.recC "R8") (.vdict [("f", .vint 2)]) =
        .ok (.vrec (.recC "R8") [("f", .vint 2)]) := rfl
    rw [h1, h2] at h
    simp at h

/-- The record class `W8` with the single serialized `init` field `g: int`. -/
def schemaW8 : List SField :=
  [{ name := "g", serialField := true, serialize := true, init := true,
     caster := none, ftype := .cls .intC, default := none }]

def envW8 : Env := [("W8", schemaW8)]

/-- Witness for the amended C8: two wire maps agreeing on `g` but differing
in unknown extra keys deserialize identically. -/
theorem C8_deserialize_reads_only_serialfield_init_keys_witness :
    deserializeRec 9 envW8 (.recC "W8") (.vdict [("g", .vint 1), ("extra", .vint 5)]) =
      deserializeRec 9 envW8 (.recC "W8") (.vdict [("g", .vint 1), ("other", .vstr "zz")]) :=
  C8_deserialize_reads_only_serialfield_init_keys 9 envW8 (.recC "W8") schemaW8 _ _ rfl
    (by
      intro f hf _ _
      simp only [schemaW8, List.mem_singleton] at hf
      subst hf
      rfl)

/-! ## C10: equivalence of the two caster-builder generations -/

/-- The common fragment the claim quantifies over: plain unparameterized
`list`, `tuple`, `str`, `int`, `float` layers without optional markers. -/
def plainAllowedLayer : Layer → Bool
  | .plain (.cls .listC) => true
  | .plain (.cls .tupleC) => true
  | .plain (.cls .strC) => true
  | .plain (.cls .intC) => true
  | .plain (.cls .floatC) => true
  | _ => false

/-- On the common fragment's classes the two generations of `get_caster`
resolve the same caster: the registry holds no function for them and
neither is a `Serializable`, so both fall back to the class itself. -/
theorem get_caster_id_agree (fuel : Nat) (env : Env) (c : PyClass)
    (h : plainAllowedLayer (.plain (.cls c)) = true) :
    old_get_caster_id fuel env (.cls c) = new_get_caster_id fuel env (.cls c) := by
  match fuel with
  | 0 => rfl
  | fuel + 1 => cases c <;> rfl

/-- The two generations of `get_caster_from_type_list` agree on every layer
list from the common fragment, at every recursion depth, on every input. -/
theorem cast_list_agree :
    ∀ (fuel : Nat) (env : Env) (layers : List Layer),
      layers.all plainAllowedLayer = true →
      ∀ v, old_cast_list fuel env layers v = new_cast_list fuel env layers v := by
  intro fuel
  induction fuel with
  | zero => intro env layers _ v; rfl
  | succ fuel ih =>
      intro env layers hall v
      match layers with
      | [] => rfl
      | l :: rest =>
          rw [List.all_cons, Bool.and_eq_true] at hall
          obtain ⟨hl, hrest⟩ := hall
          match l with
          | .opt _ => exact Bool.noConfusion hl
          | .plain .unionForm => exact Bool.noConfusion hl
          | .plain (.cls c) =>
              have hfun : (fun item => old_cast_list fuel env rest item)
                  = (fun item => new_cast_list fuel env rest item) :=
                funext (ih env rest hrest)
              show (do
                  if (← issubclassIterNotStr (.cls c)) then
                    let elems ← pyIter v
                    let items ← elems.mapM (fun item => old_cast_list fuel env rest item)
                    let cf ← old_get_caster_id fuel env (.cls c)
                    cf (.vlist items)
                  else
                    let cf ← old_get_caster_id fuel env (.cls c)
                    cf v) = (do
                  if (← issubclassIterNotStr (.cls c)) then
                    let elems ← pyIter v
                    let items ← elems.mapM (fun item => new_cast_list fuel env rest item)
                    let cf ← new_get_caster_id fuel env (.cls c)
                    cf (.vlist items)
                  else
                    let cf ← new_get_caster_id fuel env (.cls c)
                    cf v)
              rw [hfun, get_caster_id_agree fuel env c hl]

/-- C10: on every non-empty layer list drawn from the plain unparameterized
types `list`, `tuple`, `str`, `int` and `float` with no optional markers,
the caster built by `pyserial/casting.py` and the caster built by
`pyserial/conversion/casting.py` return equal results on every wire input. -/
theorem C10_cast_list_generations_equivalent
    (layers : List Layer) (_hne : layers ≠ [])
    (hall : layers.all plainAllowedLayer = true)
    (fuel : Nat) (env : Env) (v : PyVal) :
    old_cast_list fuel env layers v = new_cast_list fuel env layers v :=
  cast_list_agree fuel env layers hall v

/-- Witness for C10 at layers `(list, str)` on the input `[1, 2]`. -/
theorem C10_cast_list_generations_equivalent_witness :
    old_cast_list 5 [] [.plain (.cls .listC), .plain (.cls .strC)] (.vlist [.vint 1, .vint 2]) =
      new_cast_list 5 [] [.plain (.cls .listC), .plain (.cls .strC)] (.vlist [.vint 1, .vint 2]) :=
  C10_cast_list_generations_equivalent [.plain (.cls .listC), .plain (.cls .strC)]
    (by simp) (by decide) 5 [] (.vlist [.vint 1, .vint 2])

/-! ## C5: non-optional multi-alternative unions fail at any depth -/

/-- A type expression passing the `NoneType` identity test is `NoneType`. -/
theorem eq_noneTy_of_isNoneTy {t : PyTy} (h : isNoneTy t = true) : t = noneTy := by
  cases t with
  | cls c => cases c <;> first | rfl | exact Bool.noConfusion h
  | generic o args => exact Bool.noConfusion h
  | union ms => exact Bool.noConfusion h

theorem isNoneTy_noneTy : isNoneTy noneTy = true := rfl

theorem isNoneTy_generic (o : PyClass) (args : List PyTy) :
    isNoneTy (.generic o args) = false := rfl

theorem isNoneTy_union (ms : List PyTy) : isNoneTy (.union ms) = false := rfl

theorem containsBadUnion_noneTy : containsBadUnion noneTy = false := rfl

theorem cbu_cls (c : PyClass) : containsBadUnion (.cls c) = false := rfl

theorem cbu_generic (o : PyClass) (args : List PyTy) :
    containsBadUnion (.generic o args) = containsBadUnionList args := rfl

theorem cbu_union (ms : List PyTy) :
    containsBadUnion (.union ms) =
      (decide (2 ≤ (ms.filter (fun m => !(isNoneTy m))).length) || containsBadUnionList ms) := rfl

theorem cbul_nil : containsBadUnionList [] = false := rfl

theorem cbul_cons (t : PyTy) (ts : List PyTy) :
    containsBadUnionList (t :: ts) = (containsBadUnion t || containsBadUnionList ts) := rfl

/-- C5: whenever a type expression contains, at any nesting depth, a union
with two or more concrete (non-absence) alternatives — never a singular
optional — `type_to_list` fails with the source's `ValueError` instead of
returning a layer list. -/
theorem C5_bad_union_fails :
    ∀ t : PyTy, containsBadUnion t = true →
      type_to_list t = .error (.valueError unionErrMsg) := by
  intro t
  induction t using type_to_list.induct with
  | case1 c => exact fun hbad => Bool.noConfusion hbad
  | case2 o => exact fun hbad => Bool.noConfusion hbad
  | case3 o a ih =>
      intro hbad
      have hbad' : containsBadUnion a = true := by
        simpa [cbu_generic, cbul_cons, cbul_nil] using hbad
      show (do
          let rest ← type_to_list a
          Except.ok (Layer.plain (TypeId.cls o) :: rest)) =
        Except.error (PyErr.valueError unionErrMsg)
      rw [ih hbad']
      rfl
  | case4 origin x y tail => exact fun _ => rfl
  | case5 => exact fun hbad => Bool.noConfusion hbad
  | case6 a ih =>
      intro hbad
      have hbad' : containsBadUnion a = true := by
        cases hna : isNoneTy a <;>
          simpa [cbu_cls, cbu_generic, cbu_union, cbul_nil, cbul_cons, List.filter_cons, List.filter_nil, hna] using hbad
      show (do
          let rest ← type_to_list a
          Except.ok (Layer.plain TypeId.unionForm :: rest)) =
        Except.error (PyErr.valueError unionErrMsg)
      rw [ih hbad']
      rfl
  | case7 b c h1 h2 =>
      intro hbad
      have hc : isNoneTy (PyTy.cls c) = false := by simpa using h2
      rw [hc, Bool.false_or] at h1
      have hb := eq_noneTy_of_isNoneTy h1
      subst hb
      simp [cbu_cls, cbu_generic, cbu_union, cbul_nil, cbul_cons, List.filter_cons, List.filter_nil, hc,
        isNoneTy_noneTy, isNoneTy_generic, isNoneTy_union, containsBadUnion_noneTy] at hbad
  | case8 b o h1 h2 =>
      intro hbad
      rw [show isNoneTy (PyTy.generic o []) = false from rfl, Bool.false_or] at h1
      have hb := eq_noneTy_of_isNoneTy h1
      subst hb
      simp [cbu_cls, cbu_generic, cbu_union, cbul_nil, cbul_cons, List.filter_cons, List.filter_nil,
        isNoneTy_noneTy, isNoneTy_generic, isNoneTy_union, containsBadUnion_noneTy] at hbad
  | case9 b o x h1 h2 ih =>
      intro hbad
      rw [show isNoneTy (PyTy.generic o [x]) = false from rfl, Bool.false_or] at h1
      have hb := eq_noneTy_of_isNoneTy h1
      subst hb
      have hbad' : containsBadUnion x = true := by
        simpa [cbu_cls, cbu_generic, cbu_union, cbul_nil, cbul_cons, List.filter_cons, List.filter_nil,
          isNoneTy_noneTy, isNoneTy_generic, isNoneTy_union, containsBadUnion_noneTy] using hbad
      show (do
          let rest ← type_to_list x
          Except.ok (Layer.opt (TypeId.cls o) :: rest)) =
        Except.error (PyErr.valueError unionErrMsg)
      rw [ih hbad']
      rfl
  | case10 b origin x y tail h1 h2 =>
      intro _
      rw [show isNoneTy (PyTy.generic origin (x :: y :: tail)) = false from rfl,
        Bool.false_or] at h1
      have hb := eq_noneTy_of_isNoneTy h1
      subst hb
      rfl
  | case11 b h1 h2 =>
      intro hbad
      rw [show isNoneTy (PyTy.union []) = false from rfl, Bool.false_or] at h1
      have hb := eq_noneTy_of_isNoneTy h1
      subst hb
      simp [cbu_cls, cbu_generic, cbu_union, cbul_nil, cbul_cons, List.filter_cons, List.filter_nil,
        isNoneTy_noneTy, isNoneTy_generic, isNoneTy_union, containsBadUnion_noneTy] at hbad
  | case12 b x h1 h2 ih =>
      intro hbad
      rw [show isNoneTy (PyTy.union [x]) = false from rfl, Bool.false_or] at h1
      have hb := eq_noneTy_of_isNoneTy h1
      subst hb
      have hbad' : containsBadUnion x = true := by
        cases hnx : isNoneTy x <;>
          simpa [cbu_cls, cbu_generic, cbu_union, cbul_nil, cbul_cons, List.filter_cons, List.filter_nil,
            isNoneTy_noneTy, isNoneTy_generic, isNoneTy_union, containsBadUnion_noneTy, hnx] using hbad
      show (do
          let rest ← type_to_list x
          Except.ok (Layer.opt TypeId.unionForm :: rest)) =
        Except.error (PyErr.valueError unionErrMsg)
      rw [ih hbad']
      rfl
  | case13 b x y tail h1 h2 =>
      intro _
      rw [show isNoneTy (PyTy.union (x :: y :: tail)) = false from rfl,
        Bool.false_or] at h1
      have hb := eq_noneTy_of_isNoneTy h1
      subst hb
      rfl
  | case14 a h0 c h1 h2 =>
      intro hbad
      have ha : isNoneTy a = true := by simpa using h0
      have hb := eq_noneTy_of_isNoneTy ha
      subst hb
      have hc : isNoneTy (PyTy.cls c) = false := by simpa using h2
      simp [cbu_cls, cbu_generic, cbu_union, cbul_nil, cbul_cons, List.filter_cons, List.filter_nil, hc,
        isNoneTy_noneTy, isNoneTy_generic, isNoneTy_union, containsBadUnion_noneTy] at hbad
  | case15 a h0 o h1 h2 =>
      intro hbad
      have ha : isNoneTy a = true := by simpa using h0
      have hb := eq_noneTy_of_isNoneTy ha
      subst hb
      simp [cbu_cls, cbu_generic, cbu_union, cbul_nil, cbul_cons, List.filter_cons, List.filter_nil,
        isNoneTy_noneTy, isNoneTy_generic, isNoneTy_union, containsBadUnion_noneTy] at hbad
  | case16 a h0 o x h1 h2 ih =>
      intro hbad
      have ha : isNoneTy a = true := by simpa using h0
      have hb := eq_noneTy_of_isNoneTy ha
      subst hb
      have hbad' : containsBadUnion x = true := by
        simpa [cbu_cls, cbu_generic, cbu_union, cbul_nil, cbul_cons, List.filter_cons, List.filter_nil,
          isNoneTy_noneTy, isNoneTy_generic, isNoneTy_union, containsBadUnion_noneTy] using hbad
      show (do
          let rest ← type_to_list x
          Except.ok (Layer.opt (TypeId.cls o) :: rest)) =
        Except.error (PyErr.valueError unionErrMsg)
      rw [ih hbad']
      rfl
  | case17 a h0 origin x y tail h1 h2 =>
      intro _
      have ha : isNoneTy a = true := by simpa using h0
      have hb := eq_noneTy_of_isNoneTy ha
      subst hb
      rfl
  | case18 a h0 h1 h2 =>
      intro hbad
      have ha : isNoneTy a = true := by simpa using h0
      have hb := eq_noneTy_of_isNoneTy ha
      subst hb
      simp [cbu_cls, cbu_generic, cbu_union, cbul_nil, cbul_cons, List.filter_cons, List.filter_nil,
        isNoneTy_noneTy, isNoneTy_generic, isNoneTy_union, containsBadUnion_noneTy] at hbad
  | case19 a h0 x h1 h2 ih =>
      intro hbad
      have ha : isNoneTy a = true := by simpa using h0
      have hb := eq_noneTy_of_isNoneTy ha
      subst hb
      have hbad' : containsBadUnion x = true := by
        cases hnx : isNoneTy x <;>
          simpa [cbu_cls, cbu_generic, cbu_union, cbul_nil, cbul_cons, List.filter_cons, List.filter_nil,
            isNoneTy_noneTy, isNoneTy_generic, isNoneTy_union, containsBadUnion_noneTy, hnx] using hbad
      show (do
          let rest ← type_to_list x
          Except.ok (Layer.opt TypeId.unionForm :: rest)) =
        Except.error (PyErr.valueError unionErrMsg)
      rw [ih hbad']
      rfl
  | case20 a h0 x y tail h1 h2 =>
      intro _
      have ha : isNoneTy a = true := by simpa using h0
      have hb := eq_noneTy_of_isNoneTy ha
      subst hb
      rfl
  | case21 a b h1 h2 h3 =>
      intro hbad
      have ha := eq_noneTy_of_isNoneTy (show isNoneTy a = true by simpa using h2)
      have hb := eq_noneTy_of_isNoneTy (show isNoneTy b = true by simpa using h3)
      subst ha
      subst hb
      simp [cbu_cls, cbu_generic, cbu_union, cbul_nil, cbul_cons, List.filter_cons, List.filter_nil,
        isNoneTy_noneTy, isNoneTy_generic, isNoneTy_union, containsBadUnion_noneTy] at hbad
  | case22 a b h1 =>
      intro _
      have hcond : (isNoneTy a || isNoneTy b) = false := by simpa using h1
      rw [type_to_list.eq_def]
      simp [hcond]
  | case23 x y z tail => exact fun _ => rfl

/-- Witness for C5 at `List[Union[str, int]]`. -/
theorem C5_bad_union_fails_witness :
    type_to_list (.generic .listC [.union [.cls .strC, .cls .intC]]) =
      .error (.valueError unionErrMsg) :=
  C5_bad_union_fails (.generic .listC [.union [.cls .strC, .cls .intC]]) rfl

end PySerial
